import Mathlib

/-
  Verification of the wisecow deployment and monitoring scripts.

  Shallow embedding of the Python sources:
    scripts/deploy-wisecow.py      (WisecowDeployer)
    scripts/windows-deploy.py      (WindowsWisecowDeployer)
    scripts/check-deployment.py    (DeploymentChecker)
    scripts/system-health-monitor.py (SystemHealthMonitor)
    scripts/app-health-checker.py  (ApplicationHealthChecker)

  External command execution is modelled by an environment that assigns each
  command string an outcome; wall-clock effects (sleeps, timestamps) are
  parameters. Python exceptions are modelled by Except; a Python function that
  can raise ZeroDivisionError is modelled with Option.
-/

/-- Outcome of one `subprocess.run` invocation: normal completion with an exit
code and captured output, a `TimeoutExpired`, or any other launch exception. -/
inductive CmdOutcome where
  | completed (exitCode : Int) (stdout stderr : String)
  | timedOut
  | launchFailure (msg : String)
deriving DecidableEq

/-- Whether an outcome counts as success (`returncode == 0`). -/
def cmdSuccess : CmdOutcome → Bool
  | CmdOutcome.completed exitCode _ _ => exitCode = 0
  | CmdOutcome.timedOut => false
  | CmdOutcome.launchFailure _ => false

/-- `WisecowDeployer.run_command` / `WindowsWisecowDeployer.run_command`
(deploy-wisecow.py lines 25-55, windows-deploy.py lines 24-55): returns True on
exit code 0; on nonzero exit, timeout or launch exception it returns False when
`check` is false, and raises (modelled as `Except.error`) when `check` is true. -/
def run_command (command : String) (outcome : CmdOutcome) (check : Bool) :
    Except String Bool :=
  match outcome with
  | CmdOutcome.completed exitCode _ _ =>
      if exitCode = 0 then Except.ok true
      else if check then Except.error ("Command failed: " ++ command)
      else Except.ok false
  | CmdOutcome.timedOut =>
      if check then Except.error ("Command timed out: " ++ command)
      else Except.ok false
  | CmdOutcome.launchFailure msg =>
      if check then Except.error msg
      else Except.ok false

/-- Fallback-candidate loop shared by `validate_prerequisites` (deploy-wisecow.py
lines 62-69), `setup_monitoring` (lines 192-199) and
`install_python_dependencies` (windows-deploy.py lines 164-169): try candidates
in declared order, stop at the first success. Returns the overall verdict and
the list of candidates actually attempted, in order. -/
def tryCandidates (run : String → Bool) : List String → Bool × List String
  | [] => (false, [])
  | c :: rest =>
      if run c then (true, [c])
      else
        let r := tryCandidates run rest
        (r.1, c :: r.2)

/-- deploy-wisecow.py line 62. -/
def python_commands : List String := ["python", "python3", "py"]

/-- deploy-wisecow.py line 192. -/
def pip_commands : List String := ["pip", "pip3", "py -m pip"]

/-- windows-deploy.py line 164. -/
def windows_pip_commands : List String :=
  ["pip install requests psutil", "python -m pip install requests psutil"]

/-- `WisecowDeployer.validate_prerequisites` (deploy-wisecow.py lines 57-76):
verdict of the step is the verdict of the fallback loop over
`python_commands`. -/
def validate_prerequisites (run : String → Bool) : Bool :=
  (tryCandidates
    (fun cmd => run (cmd ++ (" scripts/pre-deployment-check.py")))
    python_commands).1

/-- `WisecowDeployer.setup_monitoring` (deploy-wisecow.py lines 187-220): runs
the pip fallback loop, prints a warning when it fails, and returns True
unconditionally (line 220). -/
def setup_monitoring (run : String → Bool) : Bool :=
  let _pip_success :=
    (tryCandidates
      (fun cmd => run (cmd ++ (" install -r scripts/requirements.txt")))
      pip_commands).1
  true

/-- The pip fallback verdict computed inside `setup_monitoring`
(deploy-wisecow.py lines 193-199). -/
def setup_monitoring_pip_success (run : String → Bool) : Bool :=
  (tryCandidates
    (fun cmd => run (cmd ++ (" install -r scripts/requirements.txt")))
    pip_commands).1

/-- `WindowsWisecowDeployer.install_python_dependencies` (windows-deploy.py
lines 159-173): verdict is the verdict of the fallback loop over the two full
pip command strings. -/
def install_python_dependencies (run : String → Bool) : Bool :=
  (tryCandidates run windows_pip_commands).1

/-- Result of a deployment run. A step method either returns a verdict or
raises. A False verdict on a required step hits the in-loop abort that prints
the step name (deploy-wisecow.py line 339); an exception propagates to the
handler that prints only the exception message (line 350), so the step name is
not recorded on that path. A KeyboardInterrupt path also exists (line 347) but
is not modelled, as no claim depends on it. -/
inductive RunResult where
  | completed
  | abortedAt (name : String)
  | abortedWithError (msg : String)
deriving DecidableEq

/-- The boolean a `deploy` method returns for a run result. -/
def runSucceeded : RunResult → Bool
  | RunResult.completed => true
  | RunResult.abortedAt _ => false
  | RunResult.abortedWithError _ => false

/-- The step loop of `WisecowDeployer.deploy` (deploy-wisecow.py lines 335-351)
and `WindowsWisecowDeployer.deploy` (windows-deploy.py lines 303-323): execute
steps in listed order; a step that raises aborts the whole try block; when a
step returns False, continue if its name is in the optional list
(windows-deploy.py lines 307-309), otherwise report the step name and stop.
Returns the run result and the list of executed steps. -/
def deployLoop (verdict : String → Except String Bool)
    (optionalNames : List String) : List String → RunResult × List String
  | [] => (RunResult.completed, [])
  | name :: rest =>
      match verdict name with
      | Except.error msg => (RunResult.abortedWithError msg, [name])
      | Except.ok true =>
          let r := deployLoop verdict optionalNames rest
          (r.1, name :: r.2)
      | Except.ok false =>
          if optionalNames.contains name then
            let r := deployLoop verdict optionalNames rest
            (r.1, name :: r.2)
          else (RunResult.abortedAt name, [name])

/-- deploy-wisecow.py lines 323-333. -/
def wisecow_steps : List String :=
  ["Validate Prerequisites", "Build Docker Image", "Test Container Locally",
   "Deploy to Kubernetes", "Verify Deployment", "Setup Monitoring",
   "Install KubeArmor (Optional)", "Apply Security Policy",
   "Display Deployment Info"]

/-- windows-deploy.py lines 292-301. -/
def windows_steps : List String :=
  ["Validate Prerequisites", "Build Docker Image", "Test Container Locally",
   "Install Python Dependencies", "Test Monitoring Scripts",
   "Deploy to Kubernetes (Optional)", "Install KubeArmor (Optional)",
   "Display Summary"]

/-- windows-deploy.py line 307: the only step name treated as optional. -/
def windows_optional : List String := ["Deploy to Kubernetes (Optional)"]

/-- `WisecowDeployer.deploy`: every step failure is fatal. -/
def wisecowDeploy (verdict : String → Except String Bool) :
    RunResult × List String :=
  deployLoop verdict [] wisecow_steps

/-- `WindowsWisecowDeployer.deploy`: the Kubernetes step is optional. -/
def windowsDeploy (verdict : String → Except String Bool) :
    RunResult × List String :=
  deployLoop verdict windows_optional windows_steps

/-- Mutable counters of `DeploymentChecker` (check-deployment.py lines 12-14). -/
structure CheckerState where
  success_count : Nat
  total_checks : Nat
deriving DecidableEq

/-- `DeploymentChecker.run_command` (check-deployment.py lines 16-43):
increments `total_checks` before running; on exit code 0 increments
`success_count` and returns True; on nonzero exit returns False; every
exception (timeout included) is caught and returns False. Never raises. -/
def checker_run_command (s : CheckerState) (outcome : CmdOutcome) :
    CheckerState × Bool :=
  let s1 : CheckerState := { s with total_checks := s.total_checks + 1 }
  match outcome with
  | CmdOutcome.completed exitCode _ _ =>
      if exitCode = 0 then
        ({ s1 with success_count := s1.success_count + 1 }, true)
      else (s1, false)
  | CmdOutcome.timedOut => (s1, false)
  | CmdOutcome.launchFailure _ => (s1, false)

/-- Run one command through the environment mapping command strings to
outcomes. -/
def ckRun (env : String → CmdOutcome) (s : CheckerState) (cmd : String) :
    CheckerState × Bool :=
  checker_run_command s (env cmd)

/-- `DeploymentChecker.check_docker_status` (check-deployment.py lines 45-52):
three unconditional checks. -/
def check_docker_status (env : String → CmdOutcome) (s : CheckerState) :
    CheckerState :=
  let s1 := (ckRun env s ("docker --version")).1
  let s2 := (ckRun env s1 ("docker ps --filter name=wisecow")).1
  (ckRun env s2 ("docker images wisecow")).1

/-- `DeploymentChecker.check_kubernetes_status` (check-deployment.py lines
54-73): one connectivity check; on failure returns early, otherwise six more
checks. -/
def check_kubernetes_status (env : String → CmdOutcome) (s : CheckerState) :
    CheckerState :=
  let r := ckRun env s ("kubectl cluster-info --request-timeout=10s")
  if r.2 then
    let s1 := (ckRun env r.1 ("kubectl get deployment wisecow")).1
    let s2 := (ckRun env s1 ("kubectl get service wisecow")).1
    let s3 := (ckRun env s2 ("kubectl get ingress wisecow-ingress")).1
    let s4 := (ckRun env s3 ("kubectl get pods -l app=wisecow")).1
    let s5 := (ckRun env s4 ("kubectl get certificates")).1
    (ckRun env s5 ("kubectl get clusterissuer")).1
  else r.1

/-- `DeploymentChecker.check_monitoring_tools` (check-deployment.py lines
102-117): three unconditional checks. `check_application_health` (lines
75-100) calls subprocess directly and never touches the counters, so it does
not appear in the state model. -/
def check_monitoring_tools (env : String → CmdOutcome) (s : CheckerState) :
    CheckerState :=
  let s1 := (ckRun env s ("python --version")).1
  let s2 := (ckRun env s1 ("python scripts/app-health-checker.py --help")).1
  (ckRun env s2 ("python scripts/system-health-monitor.py --help")).1

/-- `DeploymentChecker.check_security_components` (check-deployment.py lines
119-135): cert-manager namespace check gating a pods check, then KubeArmor
namespace check gating two more checks. -/
def check_security_components (env : String → CmdOutcome) (s : CheckerState) :
    CheckerState :=
  let r1 := ckRun env s ("kubectl get namespace cert-manager")
  let s1 := if r1.2 then (ckRun env r1.1 ("kubectl get pods -n cert-manager")).1
            else r1.1
  let r2 := ckRun env s1 ("kubectl get namespace kubearmor")
  if r2.2 then
    let s2 := (ckRun env r2.1 ("kubectl get pods -n kubearmor")).1
    (ckRun env s2 ("kubectl get kubearmor-policy")).1
  else r2.1

/-- The counter state reached by `DeploymentChecker.run_full_check`
(check-deployment.py lines 175-192) just before printing the summary. -/
def run_full_check (env : String → CmdOutcome) : CheckerState :=
  let s1 := check_docker_status env { success_count := 0, total_checks := 0 }
  let s2 := check_kubernetes_status env s1
  let s3 := check_monitoring_tools env s2
  check_security_components env s3

/-- The success ratio underlying the summary line
`(self.success_count/self.total_checks)*100` (check-deployment.py line 190):
Python raises ZeroDivisionError when `total_checks` is 0, modelled as
`none`. -/
def success_rate (s : CheckerState) : Option Rat :=
  if s.total_checks = 0 then none
  else some ((s.success_count : Rat) / (s.total_checks : Rat))

/-- The branch of `DeploymentChecker.provide_next_steps` (check-deployment.py
line 145): `success_count > total_checks * 0.8` selects the
mostly-successful guidance, anything else the needs-attention guidance. -/
inductive Guidance where
  | mostlySuccessful
  | needsAttention
deriving DecidableEq

/-- `DeploymentChecker.provide_next_steps` branch selection (check-deployment.py
lines 137-167). The comparison is strict. At the inputs considered here and in
the counterexample the Python float product `total_checks * 0.8` is exact, so
rational arithmetic agrees with the source. -/
def provide_next_steps (s : CheckerState) : Guidance :=
  if (s.success_count : Rat) > (s.total_checks : Rat) * (4 / 5) then
    Guidance.mostlySuccessful
  else Guidance.needsAttention

/-- One alert produced by `SystemHealthMonitor.check_thresholds`
(system-health-monitor.py lines 91-96, 100-105, 109-114). -/
structure Alert where
  type : String
  current : Rat
  threshold : Rat
  message : String
deriving DecidableEq

/-- Threshold configuration of `SystemHealthMonitor.__init__`
(system-health-monitor.py lines 17-21). -/
structure Thresholds where
  cpu_threshold : Rat
  memory_threshold : Rat
  disk_threshold : Rat
deriving DecidableEq

/-- The metric values of one snapshot from `collect_metrics`
(system-health-monitor.py lines 141-153); `disk` is `none` when
`get_disk_usage` failed and returned None (lines 68-70). -/
structure Metrics where
  cpu : Rat
  memory : Rat
  disk : Option Rat
deriving DecidableEq

/-- The f-string of the CPU alert message (system-health-monitor.py line 95);
numeric rendering is abstracted by `toString`. -/
def cpuMessage (current threshold : Rat) : String :=
  "CPU usage (" ++ toString current ++ "%) exceeds threshold (" ++
    toString threshold ++ "%)"

/-- system-health-monitor.py line 104. -/
def memoryMessage (current threshold : Rat) : String :=
  "Memory usage (" ++ toString current ++ "%) exceeds threshold (" ++
    toString threshold ++ "%)"

/-- system-health-monitor.py line 113. -/
def diskMessage (current threshold : Rat) : String :=
  "Disk usage (" ++ toString current ++ "%) exceeds threshold (" ++
    toString threshold ++ "%)"

/-- `SystemHealthMonitor.check_thresholds` (system-health-monitor.py lines
85-116): appends one alert per metric whose observed value strictly exceeds
its threshold, in the order CPU, MEMORY, DISK; the disk check is skipped when
the disk metrics are absent. -/
def check_thresholds (t : Thresholds) (m : Metrics) : List Alert :=
  (if m.cpu > t.cpu_threshold then
    [{ type := "CPU", current := m.cpu, threshold := t.cpu_threshold,
       message := cpuMessage m.cpu t.cpu_threshold }]
   else []) ++
  (if m.memory > t.memory_threshold then
    [{ type := "MEMORY", current := m.memory, threshold := t.memory_threshold,
       message := memoryMessage m.memory t.memory_threshold }]
   else []) ++
  (match m.disk with
   | none => []
   | some d =>
      if d > t.disk_threshold then
        [{ type := "DISK", current := d, threshold := t.disk_threshold,
           message := diskMessage d t.disk_threshold }]
      else [])

/-- A JSON value, to state the shape of the alert-sink records produced by
`json.dumps` (system-health-monitor.py line 137). -/
inductive Json where
  | str (s : String)
  | num (q : Rat)
  | obj (fields : List (String × Json))

/-- The JSON object written for one alert (system-health-monitor.py lines
133-137): fields `timestamp` and `alert`, the latter with the four alert
fields. -/
def alert_record (ts : String) (a : Alert) : Json :=
  Json.obj
    [("timestamp", Json.str ts),
     ("alert", Json.obj
        [("type", Json.str a.type),
         ("current", Json.num a.current),
         ("threshold", Json.num a.threshold),
         ("message", Json.str a.message)])]

/-- One attempted append of an alert record to the alert file
(system-health-monitor.py lines 131-137): opening in mode a and writing one
line; a failing write is an exception, modelled as `Except.error`. -/
def try_write (writeFails : Alert → Bool) (ts : String) (a : Alert)
    (lines : List Json) : Except String (List Json) :=
  if writeFails a then Except.error ("Failed to write alert to file")
  else Except.ok (lines ++ [alert_record ts a])

/-- `SystemHealthMonitor.send_alerts` (system-health-monitor.py lines 118-139):
for each alert, when an alert file is configured, attempt the append; an
exception from the write is caught and logged (counted here) and the loop
continues. Returns the sink lines and the number of logged write errors; the
absence of an error case in the return type reflects the catch on lines
138-139. -/
def send_alerts (ts : String) (writeFails : Alert → Bool) (alertFile : Bool) :
    List Alert → List Json → List Json × Nat
  | [], lines => (lines, 0)
  | a :: rest, lines =>
      if alertFile then
        match try_write writeFails ts a lines with
        | Except.ok lines2 =>
            let r := send_alerts ts writeFails alertFile rest lines2
            (r.1, r.2)
        | Except.error _ =>
            let r := send_alerts ts writeFails alertFile rest lines
            (r.1, r.2 + 1)
      else send_alerts ts writeFails alertFile rest lines

/-- Outcome of the HTTP GET issued by `ApplicationHealthChecker.check_health`
(app-health-checker.py line 52): a response with a status code, a timeout, a
connection error, or any other exception. -/
inductive ProbeResult where
  | response (status_code : Nat)
  | timeout
  | connectionError
  | otherError (msg : String)
deriving DecidableEq

/-- The fields of the status dictionary built by `check_health` that the
classification and exit code depend on. -/
structure StatusInfo where
  status_code : Option Nat
  response_time_ms : Option Rat
  status : String
  reason : String
deriving DecidableEq

/-- `ApplicationHealthChecker.get_status_reason` (app-health-checker.py lines
94-105). -/
def get_status_reason (c : Nat) : String :=
  if 200 ≤ c ∧ c < 300 then "Success"
  else if 300 ≤ c ∧ c < 400 then "Redirection"
  else if 400 ≤ c ∧ c < 500 then "Client Error"
  else if 500 ≤ c ∧ c < 600 then "Server Error"
  else "Unknown Status"

/-- `ApplicationHealthChecker.check_health` (app-health-checker.py lines
45-92): a response is up exactly when `200 <= status_code < 400`; a timeout,
connection error or other exception is down with the corresponding reason and
no status code or latency. `elapsed_ms` is the measured round-trip latency. -/
def check_health (elapsed_ms : Rat) (r : ProbeResult) : StatusInfo :=
  match r with
  | ProbeResult.response c =>
      { status_code := some c,
        response_time_ms := some elapsed_ms,
        status := if 200 ≤ c ∧ c < 400 then "up" else "down",
        reason := get_status_reason c }
  | ProbeResult.timeout =>
      { status_code := none, response_time_ms := none,
        status := "down", reason := "Request timeout" }
  | ProbeResult.connectionError =>
      { status_code := none, response_time_ms := none,
        status := "down", reason := "Connection error" }
  | ProbeResult.otherError msg =>
      { status_code := none, response_time_ms := none,
        status := "down", reason := "Error: " ++ msg }

/-- Exit code of the single-check branch of `main` (app-health-checker.py
lines 198-200): 0 when the status is up, 1 otherwise. -/
def single_check_exit (elapsed_ms : Rat) (r : ProbeResult) : Nat :=
  if (check_health elapsed_ms r).status = "up" then 0 else 1

/-- The URL validation of `main` (app-health-checker.py line 183):
`url.startswith(("http://", "https://"))`. Python strings are sequences of
characters, so startswith is modelled as a character-list prefix test. -/
def valid_url (url : String) : Bool :=
  (("http://").data.isPrefixOf url.data) ||
    (("https://").data.isPrefixOf url.data)

/-- Observable outcome of `main` in app-health-checker.py: exit before any
probe (line 185), a single check with its exit code (lines 198-200), or
entering the continuous loop (line 196). -/
inductive MainOutcome where
  | earlyExit (code : Nat)
  | singleCheck (exitCode : Nat)
  | continuousLoop
deriving DecidableEq

/-- `main` of app-health-checker.py (lines 145-200): an invalid URL exits with
code 1 before any HTTP request; otherwise the continuous flag selects the loop
or a single check. -/
def health_main (url : String) (continuous : Bool) (elapsed_ms : Rat)
    (probe : ProbeResult) : MainOutcome :=
  if valid_url url = false then MainOutcome.earlyExit 1
  else if continuous then MainOutcome.continuousLoop
  else MainOutcome.singleCheck (single_check_exit elapsed_ms probe)

theorem deployLoop_executed_initial (v : String → Except String Bool)
    (opts : List String) :
    ∀ steps : List String, ∃ r, (deployLoop v opts steps).2 ++ r = steps := by
  intro steps
  induction steps with
  | nil => exact ⟨[], rfl⟩
  | cons name rest ih =>
      cases hv : v name with
      | error msg => exact ⟨rest, by simp [deployLoop, hv]⟩
      | ok b =>
          cases b with
          | true =>
              obtain ⟨r0, hr0⟩ := ih
              exact ⟨r0, by simp [deployLoop, hv, hr0]⟩
          | false =>
              cases ho : opts.contains name with
              | true =>
                  have hm : name ∈ opts := by simpa using ho
                  obtain ⟨r0, hr0⟩ := ih
                  exact ⟨r0, by simp [deployLoop, hv, hm, hr0]⟩
              | false =>
                  have hm : ¬ name ∈ opts := by simpa using ho
                  exact ⟨rest, by simp [deployLoop, hv, hm]⟩

theorem deployLoop_abortedAt (v : String → Except String Bool)
    (opts : List String) :
    ∀ steps n, (deployLoop v opts steps).1 = RunResult.abortedAt n →
      v n = Except.ok false ∧ opts.contains n = false ∧
      ∃ pre post, steps = pre ++ n :: post ∧
        (deployLoop v opts steps).2 = pre ++ [n] ∧
        ∀ m ∈ pre, v m = Except.ok true ∨
          (v m = Except.ok false ∧ opts.contains m = true) := by
  intro steps
  induction steps with
  | nil => intro n h; simp [deployLoop] at h
  | cons name rest ih =>
      intro n h
      cases hv : v name with
      | error msg =>
          simp [deployLoop, hv] at h
      | ok b =>
          cases b with
          | true =>
              have h2 : (deployLoop v opts rest).1 = RunResult.abortedAt n := by
                simpa [deployLoop, hv] using h
              obtain ⟨h3, h4, pre, post, h5, h6, h7⟩ := ih n h2
              refine ⟨h3, h4, name :: pre, post, by simp [h5], ?_, ?_⟩
              · simp [deployLoop, hv, h6]
              · intro m hm
                rcases List.mem_cons.mp hm with hm | hm
                · exact Or.inl (hm ▸ hv)
                · exact h7 m hm
          | false =>
              cases ho : opts.contains name with
              | true =>
                  have hmem : name ∈ opts := by simpa using ho
                  have h2 : (deployLoop v opts rest).1 = RunResult.abortedAt n := by
                    simpa [deployLoop, hv, hmem] using h
                  obtain ⟨h3, h4, pre, post, h5, h6, h7⟩ := ih n h2
                  refine ⟨h3, h4, name :: pre, post, by simp [h5], ?_, ?_⟩
                  · simp [deployLoop, hv, hmem, h6]
                  · intro m hm
                    rcases List.mem_cons.mp hm with hm | hm
                    · exact Or.inr ⟨hm ▸ hv, hm ▸ ho⟩
                    · exact h7 m hm
              | false =>
                  have hmem : ¬ name ∈ opts := by simpa using ho
                  have hn : name = n := by
                    simpa [deployLoop, hv, hmem] using h
                  subst hn
                  exact ⟨hv, ho, [], rest, rfl,
                    by simp [deployLoop, hv, hmem], by simp⟩

theorem deployLoop_abortedWithError (v : String → Except String Bool)
    (opts : List String) :
    ∀ steps msg, (deployLoop v opts steps).1 = RunResult.abortedWithError msg →
      ∃ pre n post, steps = pre ++ n :: post ∧ v n = Except.error msg ∧
        (deployLoop v opts steps).2 = pre ++ [n] := by
  intro steps
  induction steps with
  | nil => intro msg h; simp [deployLoop] at h
  | cons name rest ih =>
      intro msg h
      cases hv : v name with
      | error m0 =>
          have hm : m0 = msg := by simpa [deployLoop, hv] using h
          subst hm
          exact ⟨[], name, rest, rfl, hv, by simp [deployLoop, hv]⟩
      | ok b =>
          cases b with
          | true =>
              have h2 : (deployLoop v opts rest).1 =
                  RunResult.abortedWithError msg := by
                simpa [deployLoop, hv] using h
              obtain ⟨pre, n, post, h3, h4, h5⟩ := ih msg h2
              exact ⟨name :: pre, n, post, by simp [h3], h4,
                by simp [deployLoop, hv, h5]⟩
          | false =>
              cases ho : opts.contains name with
              | true =>
                  have hmem : name ∈ opts := by simpa using ho
                  have h2 : (deployLoop v opts rest).1 =
                      RunResult.abortedWithError msg := by
                    simpa [deployLoop, hv, hmem] using h
                  obtain ⟨pre, n, post, h3, h4, h5⟩ := ih msg h2
                  exact ⟨name :: pre, n, post, by simp [h3], h4,
                    by simp [deployLoop, hv, hmem, h5]⟩
              | false =>
                  have hmem : ¬ name ∈ opts := by simpa using ho
                  simp [deployLoop, hv, hmem] at h

theorem deployLoop_append_ok (v : String → Except String Bool)
    (opts : List String) :
    ∀ pre, (∀ m ∈ pre, v m = Except.ok true) → ∀ tail,
      deployLoop v opts (pre ++ tail) =
        ((deployLoop v opts tail).1, pre ++ (deployLoop v opts tail).2) := by
  intro pre
  induction pre with
  | nil => intro _ tail; simp
  | cons name rest ih =>
      intro hpre tail
      have hv : v name = Except.ok true := hpre name (by simp)
      have ih2 := ih (fun m hm => hpre m (by simp [hm])) tail
      simp [deployLoop, hv, ih2]

/-- Step verdicts for the C1 counterexample: the required Build Docker Image
step raises, as `build_docker_image` does when `docker build` exits nonzero
(deploy-wisecow.py line 88 calls `run_command` with check=True). -/
def c1Verdict : String → Except String Bool := fun n =>
  if n == ("Build Docker Image") then
    Except.error ("Command failed: docker build -t wisecow:local .")
  else Except.ok true

/-- C1 counterexample: when the required Build Docker Image step fails by
raising, the run aborts with only the exception message; the abort record does
not carry the name of the failed step, contradicting the claim that a failing
required step always has its name recorded. -/
theorem C1_counterexample :
    (wisecowDeploy c1Verdict).1 =
      RunResult.abortedWithError ("Command failed: docker build -t wisecow:local .") ∧
    (wisecowDeploy c1Verdict).1 ≠ RunResult.abortedAt ("Build Docker Image") ∧
    (wisecowDeploy c1Verdict).2 =
      ["Validate Prerequisites", "Build Docker Image"] ∧
    runSucceeded (wisecowDeploy c1Verdict).1 = false := by
  refine ⟨rfl, ?_, rfl, rfl⟩
  decide

/-- C1 (amended): the pipeline executes steps strictly in listed order (the
executed list is an in-order initial segment of the step list). When a required
step fails by returning a failure verdict, the run records that step name,
executes no subsequent step, and returns failure. When a step fails by raising,
the run likewise stops at that step and returns failure, but records the
exception message instead of the step name. -/
theorem C1_pipeline_order_and_fatal_abort (v : String → Except String Bool)
    (opts steps : List String) :
    (∃ r, (deployLoop v opts steps).2 ++ r = steps) ∧
    (∀ n, (deployLoop v opts steps).1 = RunResult.abortedAt n →
      runSucceeded (deployLoop v opts steps).1 = false ∧
      v n = Except.ok false ∧ opts.contains n = false ∧
      ∃ pre post, steps = pre ++ n :: post ∧
        (deployLoop v opts steps).2 = pre ++ [n] ∧
        ∀ m ∈ pre, v m = Except.ok true ∨
          (v m = Except.ok false ∧ opts.contains m = true)) ∧
    (∀ msg, (deployLoop v opts steps).1 = RunResult.abortedWithError msg →
      runSucceeded (deployLoop v opts steps).1 = false ∧
      ∃ pre n post, steps = pre ++ n :: post ∧ v n = Except.error msg ∧
        (deployLoop v opts steps).2 = pre ++ [n]) := by
  refine ⟨deployLoop_executed_initial v opts steps, ?_, ?_⟩
  · intro n h
    obtain ⟨h1, h2, pre, post, h3, h4, h5⟩ :=
      deployLoop_abortedAt v opts steps n h
    exact ⟨by simp [h, runSucceeded], h1, h2, pre, post, h3, h4, h5⟩
  · intro msg h
    obtain ⟨pre, n, post, h1, h2, h3⟩ :=
      deployLoop_abortedWithError v opts steps msg h
    exact ⟨by simp [h, runSucceeded], pre, n, post, h1, h2, h3⟩

/-- Step verdicts for the C1 witness: the required Test Container Locally step
returns False (its curl probe failed), everything else succeeds. -/
def c1WitnessVerdict : String → Except String Bool := fun n =>
  if n == ("Test Container Locally") then Except.ok false else Except.ok true

/-- C1 witness: instantiation of the amended claim on the wisecow deployer with
the Test Container Locally step returning a failure verdict. -/
theorem C1_witness :
    runSucceeded (wisecowDeploy c1WitnessVerdict).1 = false ∧
    c1WitnessVerdict ("Test Container Locally") = Except.ok false ∧
    ∃ pre post,
      wisecow_steps = pre ++ ("Test Container Locally") :: post ∧
      (wisecowDeploy c1WitnessVerdict).2 = pre ++ [("Test Container Locally")] := by
  have h := (C1_pipeline_order_and_fatal_abort c1WitnessVerdict []
      wisecow_steps).2.1 ("Test Container Locally") (by decide)
  obtain ⟨ha, hb, _, pre, post, h3, h4, _⟩ := h
  exact ⟨ha, hb, pre, post, h3, h4⟩

theorem tryCandidates_verdict (run : String → Bool) :
    ∀ cands, (tryCandidates run cands).1 = cands.any run := by
  intro cands
  induction cands with
  | nil => rfl
  | cons c rest ih =>
      by_cases hc : run c = true
      · simp [tryCandidates, hc]
      · simp only [Bool.not_eq_true] at hc
        simp [tryCandidates, hc, ih]

theorem tryCandidates_attempted (run : String → Bool) :
    ∀ cands, (tryCandidates run cands).2 =
      cands.takeWhile (fun c => !run c) ++
        (cands.dropWhile (fun c => !run c)).take 1 := by
  intro cands
  induction cands with
  | nil => rfl
  | cons c rest ih =>
      by_cases hc : run c = true
      · simp [tryCandidates, List.takeWhile_cons, List.dropWhile_cons, hc]
      · simp only [Bool.not_eq_true] at hc
        simp [tryCandidates, List.takeWhile_cons, List.dropWhile_cons, hc, ih]

theorem tryCandidates_initial (run : String → Bool) :
    ∀ cands, ∃ r, (tryCandidates run cands).2 ++ r = cands := by
  intro cands
  induction cands with
  | nil => exact ⟨[], rfl⟩
  | cons c rest ih =>
      by_cases hc : run c = true
      · exact ⟨rest, by simp [tryCandidates, hc]⟩
      · simp only [Bool.not_eq_true] at hc
        obtain ⟨r0, hr0⟩ := ih
        exact ⟨r0, by simp [tryCandidates, hc, hr0]⟩

/-- C2 counterexample: `setup_monitoring` is a step with a fallback-candidate
list, yet when every pip candidate fails its verdict is still success (the
method returns True unconditionally), contradicting the claim that the verdict
of every fallback-candidate step is success iff at least one candidate
succeeds. -/
theorem C2_counterexample :
    setup_monitoring (fun _ => false) = true ∧
    setup_monitoring_pip_success (fun _ => false) = false := by
  exact ⟨rfl, rfl⟩

/-- C2 (amended): in every fallback-candidate loop the candidates are attempted
strictly in declared order, each at most once, and the attempted list is the
initial segment of the candidate list that ends with the first success, or the
whole list when all fail; the loop verdict is success iff some candidate
succeeds. The step verdicts of `validate_prerequisites` and
`install_python_dependencies` equal the loop verdict, while `setup_monitoring`
treats a pip failure as non-fatal and its step verdict is always success. -/
theorem C2_fallback_candidates :
    (∀ (run : String → Bool) (cands : List String),
       (tryCandidates run cands).1 = cands.any run ∧
       (tryCandidates run cands).2 =
         cands.takeWhile (fun c => !run c) ++
           (cands.dropWhile (fun c => !run c)).take 1 ∧
       ∃ r, (tryCandidates run cands).2 ++ r = cands) ∧
    (∀ run : String → Bool, validate_prerequisites run =
       python_commands.any
         (fun cmd => run (cmd ++ (" scripts/pre-deployment-check.py")))) ∧
    (∀ run : String → Bool, install_python_dependencies run =
       windows_pip_commands.any run) ∧
    (∀ run : String → Bool, setup_monitoring_pip_success run =
       pip_commands.any
         (fun cmd => run (cmd ++ (" install -r scripts/requirements.txt")))) ∧
    (∀ run : String → Bool, setup_monitoring run = true) := by
  refine ⟨?_, ?_, ?_, ?_, fun _ => rfl⟩
  · intro run cands
    exact ⟨tryCandidates_verdict run cands, tryCandidates_attempted run cands,
      tryCandidates_initial run cands⟩
  · intro run
    exact tryCandidates_verdict _ python_commands
  · intro run
    exact tryCandidates_verdict _ windows_pip_commands
  · intro run
    exact tryCandidates_verdict _ pip_commands

theorem checker_total (s : CheckerState) (o : CmdOutcome) :
    (checker_run_command s o).1.total_checks = s.total_checks + 1 := by
  rcases o with ⟨ec, out, err⟩ | _ | m
  · simp only [checker_run_command]
    split <;> rfl
  · rfl
  · rfl

theorem checker_inv (s : CheckerState) (o : CmdOutcome)
    (h : s.success_count ≤ s.total_checks) :
    (checker_run_command s o).1.success_count ≤
      (checker_run_command s o).1.total_checks := by
  rcases o with ⟨ec, out, err⟩ | _ | m
  · simp only [checker_run_command]
    split
    · simp
      omega
    · simp
      omega
  · simp [checker_run_command]
    omega
  · simp [checker_run_command]
    omega

/-- C3: when an optional step fails, it is still executed and counted, the run
does not abort, and all subsequent steps run exactly as they would have; when
a required step fails, the run aborts at exactly that step. In the deployment
status checker every check increments the running total whether or not it
succeeds. -/
theorem C3_optional_continues_required_aborts :
    (∀ (v : String → Except String Bool) (opts pre post : List String)
        (n : String),
       opts.contains n = true → v n = Except.ok false →
       (∀ m ∈ pre, v m = Except.ok true) →
       deployLoop v opts (pre ++ n :: post) =
         ((deployLoop v opts post).1,
           pre ++ n :: (deployLoop v opts post).2)) ∧
    (∀ (v : String → Except String Bool) (opts pre post : List String)
        (n : String),
       opts.contains n = false → v n = Except.ok false →
       (∀ m ∈ pre, v m = Except.ok true) →
       deployLoop v opts (pre ++ n :: post) =
         (RunResult.abortedAt n, pre ++ [n])) ∧
    (∀ (s : CheckerState) (o : CmdOutcome),
       (checker_run_command s o).1.total_checks = s.total_checks + 1) := by
  refine ⟨?_, ?_, checker_total⟩
  · intro v opts pre post n hopt hv hpre
    have hmem : n ∈ opts := by simpa using hopt
    rw [deployLoop_append_ok v opts pre hpre (n :: post)]
    simp [deployLoop, hv, hmem]
  · intro v opts pre post n hopt hv hpre
    have hmem : ¬ n ∈ opts := by simpa using hopt
    rw [deployLoop_append_ok v opts pre hpre (n :: post)]
    simp [deployLoop, hv, hmem]

/-- Step verdicts for the C3 witness: the optional Kubernetes step fails,
every other step succeeds. -/
def c3Verdict : String → Except String Bool := fun n =>
  if n == ("Deploy to Kubernetes (Optional)") then Except.ok false
  else Except.ok true

/-- C3 witness: on the windows deployer, the failing optional Kubernetes step
is executed and the run still completes with all eight steps executed; the
status checker counts a failing (timed out) check. -/
theorem C3_witness :
    windowsDeploy c3Verdict = (RunResult.completed, windows_steps) ∧
    (checker_run_command { success_count := 0, total_checks := 0 }
        CmdOutcome.timedOut).1.total_checks = 0 + 1 := by
  have ha := C3_optional_continues_required_aborts.1 c3Verdict windows_optional
      ["Validate Prerequisites", "Build Docker Image", "Test Container Locally",
       "Install Python Dependencies", "Test Monitoring Scripts"]
      ["Install KubeArmor (Optional)", "Display Summary"]
      ("Deploy to Kubernetes (Optional)")
      (by decide) (by rfl) (by intro m hm; fin_cases hm <;> rfl)
  have hb := C3_optional_continues_required_aborts.2.2
      { success_count := 0, total_checks := 0 } CmdOutcome.timedOut
  exact ⟨ha.trans (by decide), hb⟩

/-- C4 counterexample: with the default check=True, a command that exits
nonzero makes `run_command` raise an Exception to its caller instead of
returning a failure value, contradicting the claim that the command runner
never raises. -/
theorem C4_counterexample :
    run_command ("docker build -t wisecow:local .")
        (CmdOutcome.completed 1 ("") ("")) true =
      Except.error ("Command failed: docker build -t wisecow:local .") := rfl

/-- C4 (amended): with check=False, `run_command` never raises and returns the
success of the outcome as a boolean value; with check=True it raises exactly
when the outcome is a failure (nonzero exit, timeout, or launch exception).
`DeploymentChecker.run_command` catches every exception and returns the
outcome as a boolean, never raising. -/
theorem C4_error_as_value_only_unchecked (command : String) (o : CmdOutcome)
    (s : CheckerState) :
    run_command command o false = Except.ok (cmdSuccess o) ∧
    ((∃ msg, run_command command o true = Except.error msg) ↔
      cmdSuccess o = false) ∧
    (checker_run_command s o).2 = cmdSuccess o := by
  rcases o with ⟨ec, out, err⟩ | _ | m
  · by_cases hc : ec = 0
    · simp [run_command, cmdSuccess, checker_run_command, hc]
    · simp [run_command, cmdSuccess, checker_run_command, hc]
  · simp [run_command, cmdSuccess, checker_run_command]
  · simp [run_command, cmdSuccess, checker_run_command]

/-- C5 counterexample: a run with 4 successes out of 5 checks has success
ratio exactly 0.8, yet `provide_next_steps` takes the needs-attention branch,
because the comparison `success_count > total_checks * 0.8` is strict. -/
theorem C5_counterexample :
    provide_next_steps { success_count := 4, total_checks := 5 } =
      Guidance.needsAttention := by
  simp only [provide_next_steps]
  norm_num

/-- C5 (amended): the guidance branch is chosen by a strict comparison: the
mostly-successful branch is taken iff succeeded is strictly greater than
total times 0.8, equivalently iff the success ratio strictly exceeds 0.8 when
total is positive; a ratio of exactly 0.8 takes the needs-attention branch. -/
theorem C5_branch_requires_strictly_above (s : CheckerState) :
    (provide_next_steps s = Guidance.mostlySuccessful ↔
      (s.total_checks : Rat) * (4 / 5) < (s.success_count : Rat)) ∧
    (0 < s.total_checks →
      (provide_next_steps s = Guidance.mostlySuccessful ↔
        (4 : Rat) / 5 < (s.success_count : Rat) / (s.total_checks : Rat))) := by
  have hbase : provide_next_steps s = Guidance.mostlySuccessful ↔
      (s.total_checks : Rat) * (4 / 5) < (s.success_count : Rat) := by
    unfold provide_next_steps
    split_ifs with h
    · simpa using h
    · simpa using h
  refine ⟨hbase, fun ht => hbase.trans ?_⟩
  have htR : (0 : Rat) < (s.total_checks : Rat) := by exact_mod_cast ht
  rw [lt_div_iff₀ htR, mul_comm]

/-- C5 witness: instantiation of the amended claim at 5 successes out of 5
checks. -/
theorem C5_witness :
    0 < (5 : Nat) ∧
    (provide_next_steps { success_count := 5, total_checks := 5 } =
        Guidance.mostlySuccessful ↔
      (4 : Rat) / 5 < ((5 : Nat) : Rat) / ((5 : Nat) : Rat)) :=
  ⟨by decide,
    (C5_branch_requires_strictly_above
      { success_count := 5, total_checks := 5 }).2 (by decide)⟩

theorem ckRun_total (env : String → CmdOutcome) (s : CheckerState)
    (c : String) : (ckRun env s c).1.total_checks = s.total_checks + 1 :=
  checker_total s (env c)

theorem ckRun_inv (env : String → CmdOutcome) (s : CheckerState) (c : String)
    (h : s.success_count ≤ s.total_checks) :
    (ckRun env s c).1.success_count ≤ (ckRun env s c).1.total_checks :=
  checker_inv s (env c) h

theorem check_docker_status_total (env : String → CmdOutcome)
    (s : CheckerState) :
    (check_docker_status env s).total_checks = s.total_checks + 3 := by
  simp [check_docker_status, ckRun_total]

theorem check_docker_status_inv (env : String → CmdOutcome) (s : CheckerState)
    (h : s.success_count ≤ s.total_checks) :
    (check_docker_status env s).success_count ≤
      (check_docker_status env s).total_checks := by
  simp only [check_docker_status]
  exact ckRun_inv _ _ _ (ckRun_inv _ _ _ (ckRun_inv _ _ _ h))

theorem check_kubernetes_status_total (env : String → CmdOutcome)
    (s : CheckerState) :
    s.total_checks + 1 ≤ (check_kubernetes_status env s).total_checks := by
  simp only [check_kubernetes_status]
  split
  · simp [ckRun_total]
  · simp [ckRun_total]

theorem check_kubernetes_status_inv (env : String → CmdOutcome)
    (s : CheckerState) (h : s.success_count ≤ s.total_checks) :
    (check_kubernetes_status env s).success_count ≤
      (check_kubernetes_status env s).total_checks := by
  simp only [check_kubernetes_status]
  split
  · exact ckRun_inv _ _ _ (ckRun_inv _ _ _ (ckRun_inv _ _ _ (ckRun_inv _ _ _
      (ckRun_inv _ _ _ (ckRun_inv _ _ _ (ckRun_inv _ _ _ h))))))
  · exact ckRun_inv _ _ _ h

theorem check_monitoring_tools_total (env : String → CmdOutcome)
    (s : CheckerState) :
    (check_monitoring_tools env s).total_checks = s.total_checks + 3 := by
  simp [check_monitoring_tools, ckRun_total]

theorem check_monitoring_tools_inv (env : String → CmdOutcome)
    (s : CheckerState) (h : s.success_count ≤ s.total_checks) :
    (check_monitoring_tools env s).success_count ≤
      (check_monitoring_tools env s).total_checks := by
  simp only [check_monitoring_tools]
  exact ckRun_inv _ _ _ (ckRun_inv _ _ _ (ckRun_inv _ _ _ h))

theorem check_security_components_total (env : String → CmdOutcome)
    (s : CheckerState) :
    s.total_checks + 2 ≤ (check_security_components env s).total_checks := by
  simp only [check_security_components]
  split
  · split <;> simp [ckRun_total]
  · split <;> simp [ckRun_total]

theorem check_security_components_inv (env : String → CmdOutcome)
    (s : CheckerState) (h : s.success_count ≤ s.total_checks) :
    (check_security_components env s).success_count ≤
      (check_security_components env s).total_checks := by
  simp only [check_security_components]
  split <;> split <;>
    (repeat first | exact h | apply ckRun_inv)

theorem run_full_check_total (env : String → CmdOutcome) :
    3 ≤ (run_full_check env).total_checks := by
  simp only [run_full_check]
  have h1 := check_docker_status_total env
    { success_count := 0, total_checks := 0 }
  have h2 := check_kubernetes_status_total env
    (check_docker_status env { success_count := 0, total_checks := 0 })
  have h3 := check_monitoring_tools_total env
    (check_kubernetes_status env
      (check_docker_status env { success_count := 0, total_checks := 0 }))
  have h4 := check_security_components_total env
    (check_monitoring_tools env (check_kubernetes_status env
      (check_docker_status env { success_count := 0, total_checks := 0 })))
  omega

theorem run_full_check_inv (env : String → CmdOutcome) :
    (run_full_check env).success_count ≤ (run_full_check env).total_checks := by
  simp only [run_full_check]
  exact check_security_components_inv env _ (check_monitoring_tools_inv env _
    (check_kubernetes_status_inv env _ (check_docker_status_inv env _
      (Nat.le_refl 0))))

/-- C6 counterexample: at total = 0 the summary computation divides by zero
(Python raises ZeroDivisionError), so the ratio is not treated as 0 there,
contradicting the claim that the summary computation does not fail when
total = 0. -/
theorem C6_counterexample :
    success_rate { success_count := 0, total_checks := 0 } = none ∧
    success_rate { success_count := 0, total_checks := 0 } ≠ some 0 := by
  constructor
  · rfl
  · simp [success_rate]

/-- C6 (amended): each check preserves the invariant succeeded less than or
equal to total; after a full status check the invariant holds, the total is
positive (at least the three docker checks always run), and the success ratio
is defined and lies in the closed interval from 0 to 1. At total = 0 the
summary division would fail rather than yield 0, but that state is unreachable
at summary time. -/
theorem C6_summary_invariant (env : String → CmdOutcome) (s : CheckerState)
    (o : CmdOutcome) :
    (s.success_count ≤ s.total_checks →
      (checker_run_command s o).1.success_count ≤
        (checker_run_command s o).1.total_checks) ∧
    (run_full_check env).success_count ≤ (run_full_check env).total_checks ∧
    0 < (run_full_check env).total_checks ∧
    ∃ r : Rat, success_rate (run_full_check env) = some r ∧
      0 ≤ r ∧ r ≤ 1 := by
  have hinv := run_full_check_inv env
  have htot : 0 < (run_full_check env).total_checks := by
    have := run_full_check_total env
    omega
  refine ⟨checker_inv s o, hinv, htot, ?_⟩
  have hne : (run_full_check env).total_checks ≠ 0 := by omega
  refine ⟨((run_full_check env).success_count : Rat) /
      ((run_full_check env).total_checks : Rat), ?_, ?_, ?_⟩
  · simp [success_rate, hne]
  · positivity
  · have htR : (0 : Rat) < ((run_full_check env).total_checks : Rat) := by
      exact_mod_cast htot
    have hleR : ((run_full_check env).success_count : Rat) ≤
        ((run_full_check env).total_checks : Rat) := by exact_mod_cast hinv
    exact (div_le_one htR).mpr hleR

/-- C6 witness: instantiation at an environment where every command times out
and at empty counters with a timed out outcome. -/
theorem C6_witness :
    (checker_run_command { success_count := 0, total_checks := 0 }
        CmdOutcome.timedOut).1.success_count ≤
      (checker_run_command { success_count := 0, total_checks := 0 }
        CmdOutcome.timedOut).1.total_checks ∧
    0 < (run_full_check (fun _ => CmdOutcome.timedOut)).total_checks := by
  have h := C6_summary_invariant (fun _ => CmdOutcome.timedOut)
    { success_count := 0, total_checks := 0 } CmdOutcome.timedOut
  exact ⟨h.1 (by decide), h.2.2.1⟩

/-- C7: for every snapshot and threshold configuration, an alert for a metric
is produced iff its observed value strictly exceeds that metric threshold,
carrying the observed value as current and the configured threshold;
CPU 85 against threshold 80 yields exactly one CPU alert with current 85 and
threshold 80, CPU 75 yields none, and simultaneous breaches yield one alert
each. -/
theorem C7_threshold_alerts (t : Thresholds) (m : Metrics) :
    ((check_thresholds t m).filter (fun a => a.type == ("CPU")) =
      if m.cpu > t.cpu_threshold then
        [{ type := "CPU", current := m.cpu, threshold := t.cpu_threshold,
           message := cpuMessage m.cpu t.cpu_threshold }]
      else []) ∧
    ((check_thresholds t m).filter (fun a => a.type == ("MEMORY")) =
      if m.memory > t.memory_threshold then
        [{ type := "MEMORY", current := m.memory,
           threshold := t.memory_threshold,
           message := memoryMessage m.memory t.memory_threshold }]
      else []) ∧
    ((check_thresholds t m).filter (fun a => a.type == ("DISK")) =
      match m.disk with
      | none => []
      | some d =>
          if d > t.disk_threshold then
            [{ type := "DISK", current := d, threshold := t.disk_threshold,
               message := diskMessage d t.disk_threshold }]
          else []) ∧
    check_thresholds
        { cpu_threshold := 80, memory_threshold := 80, disk_threshold := 80 }
        { cpu := 85, memory := 50, disk := none } =
      [{ type := "CPU", current := 85, threshold := 80,
         message := cpuMessage 85 80 }] ∧
    check_thresholds
        { cpu_threshold := 80, memory_threshold := 80, disk_threshold := 80 }
        { cpu := 75, memory := 50, disk := none } = [] ∧
    (check_thresholds
        { cpu_threshold := 80, memory_threshold := 80, disk_threshold := 80 }
        { cpu := 85, memory := 90, disk := some 95 }).length = 3 := by
  refine ⟨?_, ?_, ?_, ?_, ?_, rfl⟩
  · rcases hd : m.disk with _ | d <;>
      simp only [check_thresholds, hd] <;> split_ifs <;> rfl
  · rcases hd : m.disk with _ | d <;>
      simp only [check_thresholds, hd] <;> split_ifs <;> rfl
  · rcases hd : m.disk with _ | d <;>
      simp only [check_thresholds, hd] <;> split_ifs <;> rfl
  · norm_num [check_thresholds]
  · norm_num [check_thresholds]

/-- C8: a response with status code in 200-399 is classified up; 4xx/5xx
responses, codes below 200, connection failures and timeouts are classified
down, a timeout with reason Request timeout; the single-check entry point
exits 0 iff the status is up, and 1 otherwise. -/
theorem C8_probe_classification (elapsed : Rat) (c : Nat) (msg : String)
    (r : ProbeResult) :
    (200 ≤ c → c < 400 →
      (check_health elapsed (ProbeResult.response c)).status = "up") ∧
    (400 ≤ c →
      (check_health elapsed (ProbeResult.response c)).status = "down") ∧
    (c < 200 →
      (check_health elapsed (ProbeResult.response c)).status = "down") ∧
    (check_health elapsed ProbeResult.timeout).status = "down" ∧
    (check_health elapsed ProbeResult.timeout).reason = "Request timeout" ∧
    (check_health elapsed ProbeResult.connectionError).status = "down" ∧
    (check_health elapsed (ProbeResult.otherError msg)).status = "down" ∧
    (single_check_exit elapsed r = 0 ↔
      (check_health elapsed r).status = "up") ∧
    (single_check_exit elapsed r = 0 ∨ single_check_exit elapsed r = 1) := by
  refine ⟨?_, ?_, ?_, rfl, rfl, rfl, rfl, ?_, ?_⟩
  · intro h1 h2
    have hc : 200 ≤ c ∧ c < 400 := ⟨h1, h2⟩
    simp [check_health, hc]
  · intro h1
    have hc : ¬(200 ≤ c ∧ c < 400) := by omega
    simp [check_health, hc]
  · intro h1
    have hc : ¬(200 ≤ c ∧ c < 400) := by omega
    simp [check_health, hc]
  · unfold single_check_exit
    split_ifs with h
    · simp [h]
    · simp [h]
  · unfold single_check_exit
    split_ifs <;> simp

/-- C8 witness: instantiation at codes 200 and 404 and at a timed-out probe. -/
theorem C8_witness :
    (check_health 12 (ProbeResult.response 200)).status = "up" ∧
    (check_health 12 (ProbeResult.response 404)).status = "down" ∧
    (check_health 12 ProbeResult.timeout).reason = "Request timeout" := by
  have h1 := C8_probe_classification 12 200 ("") ProbeResult.timeout
  have h2 := C8_probe_classification 12 404 ("") ProbeResult.timeout
  exact ⟨h1.1 (by decide) (by decide), h2.2.1 (by decide), h1.2.2.2.2.1⟩

theorem send_alerts_append_only (ts : String) (writeFails : Alert → Bool) :
    ∀ (alerts : List Alert) (lines : List Json),
      ∃ added, (send_alerts ts writeFails true alerts lines).1 =
        lines ++ added := by
  intro alerts
  induction alerts with
  | nil => intro lines; exact ⟨[], by simp [send_alerts]⟩
  | cons a rest ih =>
      intro lines
      by_cases hf : writeFails a = true
      · obtain ⟨ad, had⟩ := ih lines
        exact ⟨ad, by simp [send_alerts, try_write, hf, had]⟩
      · simp only [Bool.not_eq_true] at hf
        obtain ⟨ad, had⟩ := ih (lines ++ [alert_record ts a])
        exact ⟨alert_record ts a :: ad,
          by simp [send_alerts, try_write, hf, had]⟩

theorem send_alerts_all_ok (ts : String) (writeFails : Alert → Bool) :
    ∀ (alerts : List Alert) (lines : List Json),
      (∀ x ∈ alerts, writeFails x = false) →
      send_alerts ts writeFails true alerts lines =
        (lines ++ alerts.map (alert_record ts), 0) := by
  intro alerts
  induction alerts with
  | nil => intro lines _; simp [send_alerts]
  | cons a rest ih =>
      intro lines h
      have ha : writeFails a = false := h a (by simp)
      have ih2 := ih (lines ++ [alert_record ts a])
        (fun x hx => h x (by simp [hx]))
      simp [send_alerts, try_write, ha, ih2]

theorem send_alerts_no_file (ts : String) (writeFails : Alert → Bool) :
    ∀ (alerts : List Alert) (lines : List Json),
      send_alerts ts writeFails false alerts lines = (lines, 0) := by
  intro alerts
  induction alerts with
  | nil => intro lines; rfl
  | cons a rest ih => intro lines; simp [send_alerts, ih]

/-- C9: each alert persisted to the sink is appended as exactly one JSON
object on its own line with fields timestamp and alert (type, current,
threshold, message); the sink is append-only (existing lines are never
rewritten); a failing write is caught and logged and the loop continues with
the remaining alerts, never propagating an error; with no alert file
configured nothing is written. -/
theorem C9_alert_sink (ts : String) (writeFails : Alert → Bool)
    (alerts rest : List Alert) (a : Alert) (lines : List Json) :
    (∃ added, (send_alerts ts writeFails true alerts lines).1 =
      lines ++ added) ∧
    ((∀ x ∈ alerts, writeFails x = false) →
      send_alerts ts writeFails true alerts lines =
        (lines ++ alerts.map (alert_record ts), 0)) ∧
    (writeFails a = true →
      send_alerts ts writeFails true (a :: rest) lines =
        ((send_alerts ts writeFails true rest lines).1,
          (send_alerts ts writeFails true rest lines).2 + 1)) ∧
    send_alerts ts writeFails false alerts lines = (lines, 0) ∧
    alert_record ts a = Json.obj
      [("timestamp", Json.str ts),
       ("alert", Json.obj
          [("type", Json.str a.type), ("current", Json.num a.current),
           ("threshold", Json.num a.threshold),
           ("message", Json.str a.message)])] := by
  refine ⟨send_alerts_append_only ts writeFails alerts lines,
    send_alerts_all_ok ts writeFails alerts lines, ?_,
    send_alerts_no_file ts writeFails alerts lines, rfl⟩
  intro hf
  simp [send_alerts, try_write, hf]

/-- A sample alert used by the C9 witness. -/
def demoAlert : Alert :=
  { type := "CPU", current := 85, threshold := 80,
    message := cpuMessage 85 80 }

/-- C9 witness: with a working sink one record is appended for the one alert;
with a failing sink the loop finishes, logs one error, and appends nothing. -/
theorem C9_witness :
    send_alerts ("2024-01-01T00:00:00") (fun _ => false) true [demoAlert] [] =
      ([alert_record ("2024-01-01T00:00:00") demoAlert], 0) ∧
    send_alerts ("2024-01-01T00:00:00") (fun _ => true) true [demoAlert] [] =
      (([] : List Json), 1) := by
  constructor
  · have h := (C9_alert_sink ("2024-01-01T00:00:00") (fun _ => false)
        [demoAlert] [] demoAlert []).2.1 (by intro x hx; rfl)
    simpa using h
  · have h := (C9_alert_sink ("2024-01-01T00:00:00") (fun _ => true)
        [demoAlert] [] demoAlert []).2.2.1 rfl
    simpa [send_alerts] using h

/-- C10: an invocation whose URL does not start with the http or https scheme
prints an error and exits with code 1 before any HTTP request, so no probe is
attempted; the early exit happens exactly for such URLs. -/
theorem C10_invalid_url_early_exit (url : String) (continuous : Bool)
    (elapsed : Rat) (probe : ProbeResult) :
    (valid_url url = false →
      health_main url continuous elapsed probe = MainOutcome.earlyExit 1) ∧
    (health_main url continuous elapsed probe = MainOutcome.earlyExit 1 ↔
      valid_url url = false) := by
  constructor
  · intro h
    simp [health_main, h]
  · constructor
    · intro h
      by_cases hv : valid_url url = false
      · exact hv
      · simp only [Bool.not_eq_false] at hv
        by_cases hc : continuous = true <;> simp [health_main, hv, hc] at h
    · intro h
      simp [health_main, h]

/-- C10 witness: a URL without a scheme exits early with code 1. -/
theorem C10_witness :
    valid_url ("localhost:4499") = false ∧
    health_main ("localhost:4499") false 12 ProbeResult.timeout =
      MainOutcome.earlyExit 1 :=
  ⟨by decide, (C10_invalid_url_early_exit ("localhost:4499") false 12
      ProbeResult.timeout).1 (by decide)⟩
